import Mathlib

/-!
Shallow embedding of `src/app.py`, the Hugging Face Spaces supervisor script
for the Emotional Codex Companion repository.

The script runs a fixed pipeline: toolchain probe (`node --version`,
`npm --version`), `npm install`, `npm run build`, then launches `npm start`
with NODE_ENV/PORT overrides, relaying its output lines prefixed by
"[SERVER] ".

The embedding is a deterministic trace semantics.  External behavior
(whether each spawned command exists, its exit code, the server's output
lines and how many of them the daemonic relay thread manages to print,
whether a KeyboardInterrupt arrives while waiting on the server) is
supplied by a `World` oracle; the functions of `app.py` become Lean
functions from the ambient environment and the `World` to a list of
observable `Event`s plus control-flow results.  `sys.exit(1)` is modelled
by a `Bool` "keep going" flag threaded to `main`, which produces the final
process exit code.
-/

namespace App

/-- Process environment, modelled as an association list with dict-style
update (first binding replaced in place, new keys appended at the front
never duplicated). -/
abbrev Env : Type := List (String × String)

/-- Dictionary lookup on an environment (first binding wins). -/
def envLookup : Env → String → Option String
  | [], _ => none
  | (k, v) :: rest, key => if k = key then some v else envLookup rest key

/-- Dictionary update: `env[key] = value` in Python.  Replaces the first
binding of `key` if present, otherwise adds a binding. -/
def envSet : Env → String → String → Env
  | [], k, v => [(k, v)]
  | (k', v') :: rest, k, v =>
      if k' = k then (k, v) :: rest else (k', v') :: envSet rest k v

/-- The five external commands the script invokes. -/
def nodeVersionCmd : List String := ["node", "--version"]

def npmVersionCmd : List String := ["npm", "--version"]

def npmInstallCmd : List String := ["npm", "install"]

def npmBuildCmd : List String := ["npm", "run", "build"]

def npmStartCmd : List String := ["npm", "start"]

/-- Observable events of a run: a line printed to the supervisor's stdout,
a child process spawned (with the environment mapping passed to it), a
child process exiting with a code, a termination request sent to a child,
and a blocking wait on a child returning. -/
inductive Event where
  | Print (line : String)
  | Spawn (cmd : List String) (env : Env)
  | ExitProc (cmd : List String) (code : Nat)
  | Terminate (cmd : List String)
  | WaitFor (cmd : List String)
deriving DecidableEq, Repr

/-- Oracle for the final `npm start` process: whether `Popen` succeeds,
the lines readable from its combined stdout/stderr stream (as Python
yields them, trailing newline included), how many of those lines the
relay thread manages to print, whether a KeyboardInterrupt is delivered
while the supervisor waits on it, and the exit code it returns when it
exits on its own.

`drained` exists because `app.py` line 61 makes the relay thread a
daemon and never joins it: once `process.wait()` returns and the script
falls off the end, interpreter shutdown kills the thread wherever it is,
so only some environment-determined prefix of the stream — possibly all
of it, possibly not — has been printed.  The thread prints lines in
stream order, so what is relayed is always the first `drained` lines. -/
structure ServerBehavior where
  spawnOk : Bool
  outputLines : List String
  drained : Nat
  interrupted : Bool
  exitCode : Nat
deriving DecidableEq, Repr

/-- Oracle for one run of the script.  A toolchain probe outcome is
`none` when the executable cannot be located (Python `FileNotFoundError`)
and `some c` when it runs and exits with code `c` (`CalledProcessError`
when `c ≠ 0`, since the probes use `check=True`). -/
structure World where
  nodeProbe : Option Nat
  npmProbe : Option Nat
  installCode : Nat
  buildCode : Nat
  server : ServerBehavior
deriving DecidableEq, Repr

/-- Characters removed by Python `str.strip()`: exactly the code points
for which CPython's `str.isspace()` holds — ASCII whitespace 0x09-0x0d
and 0x20, the file/group/record/unit separators 0x1c-0x1f, NEL 0x85,
NBSP 0xa0, and the Unicode space and line/paragraph separators. -/
def isPySpace (c : Char) : Bool :=
  let n := c.toNat
  (0x09 ≤ n && n ≤ 0x0d) || (0x1c ≤ n && n ≤ 0x1f) || n = 0x20 ||
    n = 0x85 || n = 0xa0 || n = 0x1680 || (0x2000 ≤ n && n ≤ 0x200a) ||
    n = 0x2028 || n = 0x2029 || n = 0x202f || n = 0x205f || n = 0x3000

/-- Python `str.strip()`: drop leading and trailing whitespace. -/
def pyStrip (s : String) : String :=
  String.mk (((s.data.dropWhile isPySpace).reverse.dropWhile isPySpace).reverse)

/-- The text Python prints for a `CalledProcessError` (the `{e}` part of
the failure messages); only the presence of the command and the code
matter to the design, the exact layout mirrors CPython. -/
def calledProcessErrorMsg (cmd : List String) (code : Nat) : String :=
  "Command " ++ toString cmd ++ " returned non-zero exit status " ++
    toString code ++ "."

/-- The line printed for each server output line by the relay thread,
`app.py` line 57: the source tag followed by the stripped line. -/
def relayLine (l : String) : String :=
  "[SERVER] " ++ pyStrip l

/-- `log_output` (`app.py` lines 55-57): the relay thread iterates the
server's stdout and prints each line stripped and tagged. -/
def log_output (lines : List String) : List Event :=
  lines.map (fun l => Event.Print (relayLine l))

/-- The environment handed to the server process (`app.py` lines 39-41):
a copy of the ambient environment with NODE_ENV and PORT overridden. -/
def serverEnv (ambient : Env) : Env :=
  envSet (envSet ambient "NODE_ENV" "production") "PORT" "7860"

/-- `install_node_dependencies` (`app.py` lines 14-22).  Runs
`npm install` with `check=True`; on `CalledProcessError` prints a failure
message and calls `sys.exit(1)` (the returned flag is `false`). -/
def install_node_dependencies (ambient : Env) (w : World) :
    List Event × Bool :=
  let pre := [Event.Print "📦 Installing Node.js dependencies...",
              Event.Spawn npmInstallCmd ambient,
              Event.ExitProc npmInstallCmd w.installCode]
  if w.installCode = 0 then
    (pre ++ [Event.Print "✅ Dependencies installed successfully"], true)
  else
    (pre ++ [Event.Print ("❌ Failed to install dependencies: " ++
        calledProcessErrorMsg npmInstallCmd w.installCode)], false)

/-- `build_application` (`app.py` lines 24-32).  Runs `npm run build`
with `check=True`; on `CalledProcessError` prints a failure message and
calls `sys.exit(1)`. -/
def build_application (ambient : Env) (w : World) : List Event × Bool :=
  let pre := [Event.Print "🔨 Building React application...",
              Event.Spawn npmBuildCmd ambient,
              Event.ExitProc npmBuildCmd w.buildCode]
  if w.buildCode = 0 then
    (pre ++ [Event.Print "✅ Application built successfully"], true)
  else
    (pre ++ [Event.Print ("❌ Failed to build application: " ++
        calledProcessErrorMsg npmBuildCmd w.buildCode)], false)

/-- `start_server` (`app.py` lines 34-77).  Copies the ambient
environment, overrides NODE_ENV and PORT, launches `npm start`, relays
its output, and waits.  The relay thread is a daemon and is never
joined, so only the first `drained` output lines are printed before
interpreter shutdown kills it (see `ServerBehavior.drained`).  On
KeyboardInterrupt during the wait it terminates the server and waits
again; on any other exception it prints an error and calls
`sys.exit(1)`.  The third component is the supervisor's own ambient
environment after the call: the overrides are applied to
`os.environ.copy()`, never to `os.environ`. -/
def start_server (ambient : Env) (w : World) : List Event × Bool × Env :=
  let env := serverEnv ambient
  let pre := [Event.Print "🚀 Starting Emotional Codex Companion server..."]
  if w.server.spawnOk then
    let launched :=
      pre ++ [Event.Spawn npmStartCmd env,
              Event.Print "✅ Server started successfully on port 7860",
              Event.Print "🌐 Emotional Codex Companion is now running!",
              Event.Print "📊 Features: 91+ emotion variants, professional analysis, cultural context"] ++
      log_output (w.server.outputLines.take w.server.drained)
    if w.server.interrupted then
      (launched ++ [Event.Print "\n🛑 Shutting down server...",
                    Event.Terminate npmStartCmd,
                    Event.ExitProc npmStartCmd 143,
                    Event.WaitFor npmStartCmd], true, ambient)
    else
      (launched ++ [Event.ExitProc npmStartCmd w.server.exitCode,
                    Event.WaitFor npmStartCmd], true, ambient)
  else
    (pre ++ [Event.Print "❌ Server error: [Errno 2] No such file or directory: npm"],
     false, ambient)

/-- The fixed message printed when the toolchain check fails
(`app.py` line 89): it names both tools no matter which probe failed. -/
def toolFailMsg : String := "❌ Node.js and npm are required but not found"

/-- Events of one toolchain probe (`subprocess.run(cmd, check=True,
capture_output=True)`): nothing is spawned when the executable is
missing; otherwise the probe process runs and exits.  Probe output is
captured, so no `Print` events. -/
def probeEvents (cmd : List String) (ambient : Env) :
    Option Nat → List Event
  | none => []
  | some c => [Event.Spawn cmd ambient, Event.ExitProc cmd c]

/-- A probe succeeds when the tool is invocable and exits 0.  Both
`CalledProcessError` and `FileNotFoundError` take the same handler. -/
def probeOk (o : Option Nat) : Bool := o = some 0

/-- The 50-character separator line printed by `main` (`"=" * 50`). -/
def bar50 : String := String.mk (List.replicate 50 '=')

/-- `main` (`app.py` lines 79-97) together with the script's final exit
code: toolchain check, then install, build, and server, each aborting the
run with exit code 1 exactly where `sys.exit(1)` fires.  A run that falls
through `main` exits 0. -/
def main (ambient : Env) (w : World) : List Event × Nat :=
  let banner := [Event.Print "🧠 Emotional Codex Companion - Hugging Face Spaces",
                 Event.Print bar50]
  let nodeEv := probeEvents nodeVersionCmd ambient w.nodeProbe
  if probeOk w.nodeProbe then
    let npmEv := probeEvents npmVersionCmd ambient w.npmProbe
    if probeOk w.npmProbe then
      let i := install_node_dependencies ambient w
      if i.2 then
        let b := build_application ambient w
        if b.2 then
          let s := start_server ambient w
          (banner ++ nodeEv ++ npmEv ++ i.1 ++ b.1 ++ s.1,
           if s.2.1 then 0 else 1)
        else
          (banner ++ nodeEv ++ npmEv ++ i.1 ++ b.1, 1)
      else
        (banner ++ nodeEv ++ npmEv ++ i.1, 1)
    else
      (banner ++ nodeEv ++ npmEv ++ [Event.Print toolFailMsg], 1)
  else
    (banner ++ nodeEv ++ [Event.Print toolFailMsg], 1)

/-- The lines a run prints to the supervisor's stdout, in order. -/
def printedLines (tr : List Event) : List String :=
  tr.filterMap (fun e => match e with
    | Event.Print s => some s
    | _ => none)

/-- The commands a run spawns, in order. -/
def spawnedCmds (tr : List Event) : List (List String) :=
  tr.filterMap (fun e => match e with
    | Event.Spawn c _ => some c
    | _ => none)

/-- Keep only process lifecycle events (spawns and exits). -/
def keepProc : Event → Bool
  | Event.Spawn _ _ => true
  | Event.ExitProc _ _ => true
  | _ => false

/-- Keep only shutdown events (termination requests and waits). -/
def keepShutdown : Event → Bool
  | Event.Terminate _ => true
  | Event.WaitFor _ => true
  | _ => false

/-- The tag prepended to relayed server lines, as characters. -/
def tagChars : List Char := "[SERVER] ".data

/-- A printed line is a relay line when it starts with the source tag. -/
def isRelayLine (s : String) : Bool :=
  s.data.take 9 = tagChars

/-- The relayed server lines of a run, in order. -/
def relayedLines (tr : List Event) : List String :=
  (printedLines tr).filter isRelayLine

/-- What the relay thread prints for a given server output stream. -/
def relayOf (lines : List String) : List String :=
  lines.map relayLine

/-- `true` when, scanning the trace with `n` processes initially active,
the number of active (spawned, not yet exited) processes never exceeds
one. -/
def okActive : List Event → Nat → Bool
  | [], _ => true
  | Event.Spawn _ _ :: rest, n => n + 1 ≤ 1 && okActive rest (n + 1)
  | Event.ExitProc _ _ :: rest, n => okActive rest (n - 1)
  | _ :: rest, n => okActive rest n

/-- The uninvokable subset of the required toolchain for a given world:
tools whose executable cannot be located at all. -/
def missingTools (w : World) : List String :=
  (if w.nodeProbe = none then ["node"] else []) ++
    (if w.npmProbe = none then ["npm"] else [])

/-- The fully ordered chain of lifecycle events every successful run must
contain, in order: each phase's process exits (code 0 for the probes and
setup steps) before the next phase's process is spawned, and the server
is spawned last, with the overridden environment. -/
def phaseChain (ambient : Env) : List Event :=
  [Event.Spawn nodeVersionCmd ambient, Event.ExitProc nodeVersionCmd 0,
   Event.Spawn npmVersionCmd ambient, Event.ExitProc npmVersionCmd 0,
   Event.Spawn npmInstallCmd ambient, Event.ExitProc npmInstallCmd 0,
   Event.Spawn npmBuildCmd ambient, Event.ExitProc npmBuildCmd 0,
   Event.Spawn npmStartCmd (serverEnv ambient)]

/-- The ordered lifecycle events that must precede the install step:
both toolchain probes spawned and exited 0 before `npm install` spawns. -/
def phaseChainInstall (ambient : Env) : List Event :=
  [Event.Spawn nodeVersionCmd ambient, Event.ExitProc nodeVersionCmd 0,
   Event.Spawn npmVersionCmd ambient, Event.ExitProc npmVersionCmd 0,
   Event.Spawn npmInstallCmd ambient]

/-- The ordered lifecycle events that must precede the build step:
the install process additionally exited 0 before `npm run build` spawns. -/
def phaseChainBuild (ambient : Env) : List Event :=
  phaseChainInstall ambient ++
    [Event.ExitProc npmInstallCmd 0, Event.Spawn npmBuildCmd ambient]

/-- The supervisor's own status lines on a fully successful run, in
order, before any relayed server output. -/
def supervisorPrints : List String :=
  ["🧠 Emotional Codex Companion - Hugging Face Spaces", bar50,
   "📦 Installing Node.js dependencies...",
   "✅ Dependencies installed successfully",
   "🔨 Building React application...",
   "✅ Application built successfully",
   "🚀 Starting Emotional Codex Companion server...",
   "✅ Server started successfully on port 7860",
   "🌐 Emotional Codex Companion is now running!",
   "📊 Features: 91+ emotion variants, professional analysis, cultural context"]

/-- A server that spawns, prints nothing, is not interrupted, exits 0. -/
def okServer : ServerBehavior :=
  { spawnOk := true, outputLines := [], drained := 0, interrupted := false,
    exitCode := 0 }

/-- A world where every phase succeeds. -/
def wAllGood : World :=
  { nodeProbe := some 0, npmProbe := some 0, installCode := 0,
    buildCode := 0, server := okServer }

/-- Everything succeeds but the server exits on its own with code 5. -/
def wC1 : World := { wAllGood with server := { okServer with exitCode := 5 } }

/-- The install step exits with code 2. -/
def wC2 : World := { wAllGood with installCode := 2 }

/-- `node` is invocable but `npm` is missing. -/
def wC4a : World := { wAllGood with npmProbe := none }

/-- Both `node` and `npm` are missing. -/
def wC4b : World := { wAllGood with nodeProbe := none, npmProbe := none }

/-- A successful run whose server prints one line with leading spaces,
fully drained by the relay thread. -/
def wC5 : World :=
  { wAllGood with server :=
      { okServer with outputLines := ["  ready"], drained := 1 } }

/-- A successful run whose server prints two lines of which the daemonic
relay thread only manages to print the first before interpreter
shutdown. -/
def wC5b : World :=
  { wAllGood with server :=
      { okServer with outputLines := ["a\n", "b\n"], drained := 1 } }

/-- A run interrupted by the operator while the server is running. -/
def wC8 : World :=
  { wAllGood with server := { okServer with interrupted := true } }

/-- An ambient environment that already binds the mode flag and port. -/
def devEnv : Env := [("NODE_ENV", "development"), ("PORT", "3000")]

/-- The install step exits with code 1. -/
def wC3 : World := { wAllGood with installCode := 1 }

/-! ### Helper lemmas -/

theorem envLookup_envSet_self (e : Env) (k v : String) :
    envLookup (envSet e k v) k = some v := by
  induction e with
  | nil => simp [envSet, envLookup]
  | cons p rest ih =>
      by_cases h : p.1 = k
      · simp [envSet, envLookup, h]
      · simp [envSet, envLookup, h, ih]

theorem envLookup_envSet_ne (e : Env) (k k' v : String) (h : k' ≠ k) :
    envLookup (envSet e k v) k' = envLookup e k' := by
  induction e with
  | nil => simp [envSet, envLookup, h, Ne.symm h]
  | cons p rest ih =>
      by_cases hp : p.1 = k
      · simp [envSet, envLookup, hp, Ne.symm h, h]
      · by_cases hp' : p.1 = k'
        · simp [envSet, envLookup, hp, hp', h]
        · simp [envSet, envLookup, hp, hp', ih]

theorem serverEnv_NODE_ENV (ambient : Env) :
    envLookup (serverEnv ambient) "NODE_ENV" = some "production" := by
  unfold serverEnv
  rw [envLookup_envSet_ne _ _ _ _ (by decide)]
  exact envLookup_envSet_self ..

theorem serverEnv_PORT (ambient : Env) :
    envLookup (serverEnv ambient) "PORT" = some "7860" :=
  envLookup_envSet_self ..

theorem probeOk_iff (o : Option Nat) : probeOk o = true ↔ o = some 0 := by
  simp [probeOk]

theorem spawnedCmds_nil : spawnedCmds [] = [] := rfl

theorem spawnedCmds_cons_print (s : String) (tr : List Event) :
    spawnedCmds (Event.Print s :: tr) = spawnedCmds tr := rfl

theorem spawnedCmds_cons_spawn (c : List String) (env : Env)
    (tr : List Event) :
    spawnedCmds (Event.Spawn c env :: tr) = c :: spawnedCmds tr := rfl

theorem spawnedCmds_cons_exit (c : List String) (k : Nat) (tr : List Event) :
    spawnedCmds (Event.ExitProc c k :: tr) = spawnedCmds tr := rfl

theorem spawnedCmds_cons_term (c : List String) (tr : List Event) :
    spawnedCmds (Event.Terminate c :: tr) = spawnedCmds tr := rfl

theorem spawnedCmds_cons_wait (c : List String) (tr : List Event) :
    spawnedCmds (Event.WaitFor c :: tr) = spawnedCmds tr := rfl

theorem spawnedCmds_append (l₁ l₂ : List Event) :
    spawnedCmds (l₁ ++ l₂) = spawnedCmds l₁ ++ spawnedCmds l₂ :=
  List.filterMap_append ..

theorem spawnedCmds_log_output (ls : List String) :
    spawnedCmds (log_output ls) = [] := by
  simp [log_output, spawnedCmds]

theorem printedLines_append (l₁ l₂ : List Event) :
    printedLines (l₁ ++ l₂) = printedLines l₁ ++ printedLines l₂ :=
  List.filterMap_append ..

theorem printedLines_log_output (ls : List String) :
    printedLines (log_output ls) = relayOf ls := by
  induction ls with
  | nil => rfl
  | cons l rest ih => simpa [log_output, printedLines, relayOf] using ih

theorem isRelayLine_relayLine (l : String) :
    isRelayLine (relayLine l) = true := by
  have hdata : (relayLine l).data = tagChars ++ (pyStrip l).data := by
    simp [relayLine, tagChars]
  have htake : (relayLine l).data.take 9 = tagChars := by
    rw [hdata]
    have h9 : tagChars.length = 9 := by decide
    rw [← h9]
    exact List.take_left ..
  simp [isRelayLine, htake]

theorem spawnedCmds_probeEvents (cmd : List String) (a : Env) (o : Option Nat) :
    spawnedCmds (probeEvents cmd a o) = if o = none then [] else [cmd] := by
  cases o <;>
    simp [probeEvents, spawnedCmds_nil, spawnedCmds_cons_spawn,
      spawnedCmds_cons_exit]

theorem spawnedCmds_install (a : Env) (w : World) :
    spawnedCmds (install_node_dependencies a w).1 = [npmInstallCmd] := by
  by_cases h : w.installCode = 0 <;>
    simp [install_node_dependencies, h, spawnedCmds_nil,
      spawnedCmds_cons_print, spawnedCmds_cons_spawn, spawnedCmds_cons_exit]

theorem spawnedCmds_build (a : Env) (w : World) :
    spawnedCmds (build_application a w).1 = [npmBuildCmd] := by
  by_cases h : w.buildCode = 0 <;>
    simp [build_application, h, spawnedCmds_nil, spawnedCmds_cons_print,
      spawnedCmds_cons_spawn, spawnedCmds_cons_exit]

theorem spawnedCmds_start (a : Env) (w : World) :
    spawnedCmds (start_server a w).1 =
      if w.server.spawnOk then [npmStartCmd] else [] := by
  cases hs : w.server.spawnOk <;> cases hi : w.server.interrupted <;>
    simp [start_server, hs, hi, spawnedCmds_append, spawnedCmds_log_output,
      spawnedCmds_nil, spawnedCmds_cons_print, spawnedCmds_cons_spawn,
      spawnedCmds_cons_exit, spawnedCmds_cons_term, spawnedCmds_cons_wait]

/-- Closed form for the commands a run spawns, by case on the oracle. -/
theorem spawnedCmds_main (ambient : Env) (w : World) :
    spawnedCmds (main ambient w).1 =
      (if w.nodeProbe = none then [] else [nodeVersionCmd]) ++
      (if w.nodeProbe = some 0 then
        (if w.npmProbe = none then [] else [npmVersionCmd]) ++
        (if w.npmProbe = some 0 then
          npmInstallCmd ::
          (if w.installCode = 0 then
            npmBuildCmd ::
            (if w.buildCode = 0 then
              (if w.server.spawnOk then [npmStartCmd] else [])
            else [])
          else [])
        else [])
      else []) := by
  by_cases hn : w.nodeProbe = some 0
  · by_cases hm : w.npmProbe = some 0
    · by_cases hi : w.installCode = 0
      · by_cases hb : w.buildCode = 0
        · simp [main, probeOk, hn, hm, hi, hb, spawnedCmds_append,
            spawnedCmds_probeEvents, spawnedCmds_install, spawnedCmds_build,
            spawnedCmds_start, install_node_dependencies, build_application,
            spawnedCmds_nil, spawnedCmds_cons_print, spawnedCmds_cons_spawn,
            spawnedCmds_cons_exit]
        · simp [main, probeOk, hn, hm, hi, hb, spawnedCmds_append,
            spawnedCmds_probeEvents, spawnedCmds_install, spawnedCmds_build,
            install_node_dependencies, build_application, spawnedCmds_nil,
            spawnedCmds_cons_print, spawnedCmds_cons_spawn,
            spawnedCmds_cons_exit]
      · simp [main, probeOk, hn, hm, hi, spawnedCmds_append,
          spawnedCmds_probeEvents, spawnedCmds_install,
          install_node_dependencies, spawnedCmds_nil,
          spawnedCmds_cons_print, spawnedCmds_cons_spawn,
          spawnedCmds_cons_exit]
    · simp [main, probeOk, hn, hm, spawnedCmds_append,
        spawnedCmds_probeEvents, spawnedCmds_nil, spawnedCmds_cons_print]
  · simp [main, probeOk, hn, spawnedCmds_append, spawnedCmds_probeEvents,
      spawnedCmds_nil, spawnedCmds_cons_print]

theorem printedLines_nil : printedLines [] = [] := rfl

theorem printedLines_cons_print (s : String) (tr : List Event) :
    printedLines (Event.Print s :: tr) = s :: printedLines tr := rfl

theorem printedLines_cons_spawn (c : List String) (env : Env)
    (tr : List Event) :
    printedLines (Event.Spawn c env :: tr) = printedLines tr := rfl

theorem printedLines_cons_exit (c : List String) (k : Nat)
    (tr : List Event) :
    printedLines (Event.ExitProc c k :: tr) = printedLines tr := rfl

theorem printedLines_cons_term (c : List String) (tr : List Event) :
    printedLines (Event.Terminate c :: tr) = printedLines tr := rfl

theorem printedLines_cons_wait (c : List String) (tr : List Event) :
    printedLines (Event.WaitFor c :: tr) = printedLines tr := rfl

theorem printedLines_probeEvents (cmd : List String) (a : Env)
    (o : Option Nat) : printedLines (probeEvents cmd a o) = [] := by
  cases o <;>
    simp [probeEvents, printedLines_nil, printedLines_cons_spawn,
      printedLines_cons_exit]

theorem okActive_nil (n : Nat) : okActive [] n = true := rfl

theorem okActive_cons_print (s : String) (tr : List Event) (n : Nat) :
    okActive (Event.Print s :: tr) n = okActive tr n := rfl

theorem okActive_cons_spawn (c : List String) (env : Env) (tr : List Event)
    (n : Nat) :
    okActive (Event.Spawn c env :: tr) n =
      (decide (n + 1 ≤ 1) && okActive tr (n + 1)) := rfl

theorem okActive_cons_exit (c : List String) (k : Nat) (tr : List Event)
    (n : Nat) :
    okActive (Event.ExitProc c k :: tr) n = okActive tr (n - 1) := rfl

theorem okActive_cons_term (c : List String) (tr : List Event) (n : Nat) :
    okActive (Event.Terminate c :: tr) n = okActive tr n := rfl

theorem okActive_cons_wait (c : List String) (tr : List Event) (n : Nat) :
    okActive (Event.WaitFor c :: tr) n = okActive tr n := rfl

theorem okActive_log_output_append (ls : List String) (rest : List Event)
    (n : Nat) : okActive (log_output ls ++ rest) n = okActive rest n := by
  induction ls with
  | nil => simp [log_output]
  | cons l tail ih => simpa [log_output, okActive_cons_print] using ih

theorem okActive_probeEvents_append (cmd : List String) (a : Env)
    (o : Option Nat) (rest : List Event) :
    okActive (probeEvents cmd a o ++ rest) 0 = okActive rest 0 := by
  cases o <;>
    simp [probeEvents, okActive_cons_spawn, okActive_cons_exit]

/-- The script's final exit code, in closed form: 0 exactly when both
probes succeed, both setup steps exit 0, and the server can be spawned
(whatever the server then does); 1 otherwise. -/
theorem main_exitCode (ambient : Env) (w : World) :
    (main ambient w).2 =
      if w.nodeProbe = some 0 ∧ w.npmProbe = some 0 ∧ w.installCode = 0 ∧
          w.buildCode = 0 ∧ w.server.spawnOk = true then 0 else 1 := by
  by_cases hn : w.nodeProbe = some 0
  · by_cases hm : w.npmProbe = some 0
    · by_cases hi : w.installCode = 0
      · by_cases hb : w.buildCode = 0
        · cases hs : w.server.spawnOk <;>
            cases hint : w.server.interrupted <;>
              simp [main, probeOk, hn, hm, hi, hb, hs, hint,
                install_node_dependencies, build_application, start_server]
        · simp [main, probeOk, hn, hm, hi, hb, install_node_dependencies,
            build_application]
      · simp [main, probeOk, hn, hm, hi, install_node_dependencies]
    · simp [main, probeOk, hn, hm]
  · simp [main, probeOk, hn]

theorem install_spawned_iff (ambient : Env) (w : World) :
    npmInstallCmd ∈ spawnedCmds (main ambient w).1 ↔
      (w.nodeProbe = some 0 ∧ w.npmProbe = some 0) := by
  rw [spawnedCmds_main]
  by_cases hn : w.nodeProbe = some 0
  · by_cases hm : w.npmProbe = some 0
    · simp [hn, hm, nodeVersionCmd, npmVersionCmd, npmInstallCmd]
    · simp [hn, hm, nodeVersionCmd, npmVersionCmd, npmInstallCmd]
  · simp [hn, nodeVersionCmd, npmInstallCmd]

theorem build_spawned_iff (ambient : Env) (w : World) :
    npmBuildCmd ∈ spawnedCmds (main ambient w).1 ↔
      (w.nodeProbe = some 0 ∧ w.npmProbe = some 0 ∧ w.installCode = 0) := by
  rw [spawnedCmds_main]
  by_cases hn : w.nodeProbe = some 0
  · by_cases hm : w.npmProbe = some 0
    · by_cases hi : w.installCode = 0
      · simp [hn, hm, hi, nodeVersionCmd, npmVersionCmd, npmInstallCmd,
          npmBuildCmd]
      · simp [hn, hm, hi, nodeVersionCmd, npmVersionCmd, npmInstallCmd,
          npmBuildCmd]
    · simp [hn, hm, nodeVersionCmd, npmVersionCmd, npmBuildCmd]
  · simp [hn, nodeVersionCmd, npmBuildCmd]

theorem start_spawned_iff (ambient : Env) (w : World) :
    npmStartCmd ∈ spawnedCmds (main ambient w).1 ↔
      (w.nodeProbe = some 0 ∧ w.npmProbe = some 0 ∧ w.installCode = 0 ∧
        w.buildCode = 0 ∧ w.server.spawnOk = true) := by
  rw [spawnedCmds_main]
  by_cases hn : w.nodeProbe = some 0
  · by_cases hm : w.npmProbe = some 0
    · by_cases hi : w.installCode = 0
      · by_cases hb : w.buildCode = 0
        · cases hs : w.server.spawnOk <;>
            simp [hn, hm, hi, hb, hs, nodeVersionCmd, npmVersionCmd,
              npmInstallCmd, npmBuildCmd, npmStartCmd]
        · simp [hn, hm, hi, hb, nodeVersionCmd, npmVersionCmd,
            npmInstallCmd, npmBuildCmd, npmStartCmd]
      · simp [hn, hm, hi, nodeVersionCmd, npmVersionCmd, npmInstallCmd,
          npmStartCmd]
    · simp [hn, hm, nodeVersionCmd, npmVersionCmd, npmStartCmd]
  · simp [hn, nodeVersionCmd, npmStartCmd]

theorem mem_spawnedCmds_of_spawn_mem {c : List String} {env : Env}
    {tr : List Event} (h : Event.Spawn c env ∈ tr) :
    c ∈ spawnedCmds tr := by
  induction tr with
  | nil => cases h
  | cons e rest ih =>
      rcases List.mem_cons.mp h with he | he
      · subst he
        simp [spawnedCmds_cons_spawn]
      · cases e <;>
          simp [spawnedCmds_cons_print, spawnedCmds_cons_spawn,
            spawnedCmds_cons_exit, spawnedCmds_cons_term,
            spawnedCmds_cons_wait, ih he]

theorem filter_keepProc_log_output (ls : List String) :
    (log_output ls).filter keepProc = [] := by
  simp [log_output, keepProc, List.filter_map]

theorem filter_keepShutdown_log_output (ls : List String) :
    (log_output ls).filter keepShutdown = [] := by
  simp [log_output, keepShutdown, List.filter_map]

/-- Closed form for the process lifecycle events of a run whose toolchain
check passed: the probes and the install step in order, then the later
phases as far as the oracle lets the run proceed. -/
theorem filterProc_main_checked (a : Env) (w : World)
    (hn : w.nodeProbe = some 0) (hm : w.npmProbe = some 0) :
    (main a w).1.filter keepProc =
      (phaseChainInstall a ++ [Event.ExitProc npmInstallCmd w.installCode]) ++
      (if w.installCode = 0 then
        [Event.Spawn npmBuildCmd a, Event.ExitProc npmBuildCmd w.buildCode] ++
        (if w.buildCode = 0 then
          (if w.server.spawnOk then
            [Event.Spawn npmStartCmd (serverEnv a),
             Event.ExitProc npmStartCmd
               (if w.server.interrupted then 143 else w.server.exitCode)]
          else [])
        else [])
      else []) := by
  by_cases hi : w.installCode = 0
  · by_cases hb : w.buildCode = 0
    · cases hs : w.server.spawnOk <;> cases hint : w.server.interrupted <;>
        simp [main, probeOk, hn, hm, hi, hb, hs, hint, probeEvents,
          install_node_dependencies, build_application, start_server,
          phaseChainInstall, keepProc, filter_keepProc_log_output,
          List.filter_append]
    · simp [main, probeOk, hn, hm, hi, hb, probeEvents,
        install_node_dependencies, build_application, phaseChainInstall,
        keepProc, List.filter_append]
  · simp [main, probeOk, hn, hm, hi, probeEvents,
      install_node_dependencies, phaseChainInstall, keepProc,
      List.filter_append]

/-- On an interrupted, fully successful run the only shutdown events are
one termination request to the server followed by one wait on it. -/
theorem filterShutdown_main_interrupted (a : Env) (w : World)
    (hn : w.nodeProbe = some 0) (hm : w.npmProbe = some 0)
    (hi : w.installCode = 0) (hb : w.buildCode = 0)
    (hs : w.server.spawnOk = true) (hint : w.server.interrupted = true) :
    (main a w).1.filter keepShutdown =
      [Event.Terminate npmStartCmd, Event.WaitFor npmStartCmd] := by
  simp [main, probeOk, hn, hm, hi, hb, hs, hint, probeEvents,
    install_node_dependencies, build_application, start_server,
    keepShutdown, filter_keepShutdown_log_output, List.filter_append]

/-- Closed form for the printed lines of a fully successful run that is
not interrupted: the supervisor's own status lines, then the relayed
part of the server output — the first `drained` lines, since the daemon
relay thread is never joined. -/
theorem printedLines_main_good (a : Env) (w : World)
    (hn : w.nodeProbe = some 0) (hm : w.npmProbe = some 0)
    (hi : w.installCode = 0) (hb : w.buildCode = 0)
    (hs : w.server.spawnOk = true) (hint : w.server.interrupted = false) :
    printedLines (main a w).1 =
      supervisorPrints ++
        relayOf (w.server.outputLines.take w.server.drained) := by
  simp [main, probeOk, hn, hm, hi, hb, hs, hint, probeEvents,
    install_node_dependencies, build_application, start_server,
    printedLines_append, printedLines_probeEvents, printedLines_log_output,
    printedLines_nil, printedLines_cons_print, printedLines_cons_spawn,
    printedLines_cons_exit, printedLines_cons_term, printedLines_cons_wait,
    supervisorPrints]

/-! ### Claim theorems -/

/-- Claim C1, counterexample: in a world where every phase succeeds and
the server exits on its own with code 5 (non-zero), the Supervisor
nevertheless exits with code 0 — `process.wait()`'s result is ignored, so
the claim as stated is false. -/
theorem C1_counterexample :
    wC1.server.exitCode = 5 ∧ wC1.server.exitCode ≠ 0 ∧
      (main [] wC1).2 = 0 := by
  decide

/-- Claim C1, amended: when the launched server exits on its own with any
exit code K (zero or not), the Supervisor exits with code 0; the server's
exit status is never reflected in the Supervisor's exit code. -/
theorem C1_server_exit_status_ignored (ambient : Env) (w : World)
    (hn : w.nodeProbe = some 0) (hm : w.npmProbe = some 0)
    (hi : w.installCode = 0) (hb : w.buildCode = 0)
    (hs : w.server.spawnOk = true) (_hint : w.server.interrupted = false) :
    (main ambient w).2 = 0 := by
  simp [main_exitCode, hn, hm, hi, hb, hs]

/-- Claim C1, witness: the amended theorem at the concrete world where
the server exits with code 5. -/
theorem C1_witness : (main [] wC1).2 = 0 :=
  C1_server_exit_status_ignored [] wC1 rfl rfl rfl rfl rfl rfl

/-- Claim C2, counterexample: with the install step exiting with code 2,
the Supervisor exits with code 1, not a code whose numeric value reflects
the underlying status 2 — `sys.exit(1)` is hard-coded. -/
theorem C2_counterexample :
    wC2.installCode = 2 ∧ (main [] wC2).2 = 1 ∧ (main [] wC2).2 ≠ 2 := by
  decide

/-- Claim C2, amended: when a setup step (install or build) exits with
any non-zero status C, the Supervisor terminates immediately with exit
code 1 — non-zero, but fixed, never the underlying command's status. -/
theorem C2_setup_failure_exits_one (ambient : Env) (w : World)
    (_hn : w.nodeProbe = some 0) (_hm : w.npmProbe = some 0)
    (hfail : w.installCode ≠ 0 ∨ w.buildCode ≠ 0) :
    (main ambient w).2 = 1 := by
  rw [main_exitCode]
  rcases hfail with h | h <;> simp [h]

/-- Claim C2, witness: the amended theorem at the concrete world where
the install step exits with code 2. -/
theorem C2_witness : (main [] wC2).2 = 1 :=
  C2_setup_failure_exits_one [] wC2 rfl rfl (Or.inl (by decide))

/-- Claim C3: setup steps form a strict fail-fast chain.  If the install
step exits non-zero, the build command and the server command are never
spawned; if the build step exits non-zero, the server command is never
spawned. -/
theorem C3_fail_fast_chain (ambient : Env) (w : World) :
    (w.installCode ≠ 0 →
      npmBuildCmd ∉ spawnedCmds (main ambient w).1 ∧
        npmStartCmd ∉ spawnedCmds (main ambient w).1) ∧
    (w.buildCode ≠ 0 → npmStartCmd ∉ spawnedCmds (main ambient w).1) := by
  refine ⟨fun hi => ⟨fun hmem => ?_, fun hmem => ?_⟩, fun hb hmem => ?_⟩
  · exact hi ((build_spawned_iff ambient w).mp hmem).2.2
  · exact hi ((start_spawned_iff ambient w).mp hmem).2.2.1
  · exact hb ((start_spawned_iff ambient w).mp hmem).2.2.2.1

/-- Claim C3, witness: at the concrete world whose install step exits 1,
the build command is not among the spawned commands. -/
theorem C3_witness :
    wC3.installCode ≠ 0 ∧ npmBuildCmd ∉ spawnedCmds (main [] wC3).1 :=
  ⟨by decide, ((C3_fail_fast_chain [] wC3).1 (by decide)).1⟩

/-- Claim C6: every environment mapping passed to a spawned server
command binds NODE_ENV to "production" and PORT to "7860", whatever the
ambient environment previously bound them to (override, not merge). -/
theorem C6_server_env_overrides (ambient : Env) (w : World) (e : Env)
    (h : Event.Spawn npmStartCmd e ∈ (main ambient w).1) :
    envLookup e "NODE_ENV" = some "production" ∧
      envLookup e "PORT" = some "7860" := by
  obtain ⟨hn, hm, hi, hb, hs⟩ :=
    (start_spawned_iff ambient w).mp (mem_spawnedCmds_of_spawn_mem h)
  have hmem2 : Event.Spawn npmStartCmd e ∈ (main ambient w).1.filter keepProc :=
    List.mem_filter.mpr ⟨h, by simp [keepProc]⟩
  rw [filterProc_main_checked ambient w hn hm] at hmem2
  simp [hi, hb, hs, phaseChainInstall, nodeVersionCmd, npmVersionCmd,
    npmInstallCmd, npmBuildCmd, npmStartCmd] at hmem2
  subst hmem2
  exact ⟨serverEnv_NODE_ENV ambient, serverEnv_PORT ambient⟩

/-- Claim C6, witness: the theorem at a concrete ambient environment that
already binds NODE_ENV to "development" and PORT to "3000". -/
theorem C6_witness :
    envLookup (serverEnv devEnv) "NODE_ENV" = some "production" ∧
      envLookup (serverEnv devEnv) "PORT" = some "7860" :=
  C6_server_env_overrides devEnv wAllGood (serverEnv devEnv) (by decide)

/-- Claim C9: in every run, at most one managed process is active
(spawned but not yet exited) at any point of the trace: the probes and
setup steps each exit before anything else is spawned, and the server is
spawned only after the build process exited. -/
theorem C9_at_most_one_active (ambient : Env) (w : World) :
    okActive (main ambient w).1 0 = true := by
  by_cases hn : w.nodeProbe = some 0
  · by_cases hm : w.npmProbe = some 0
    · by_cases hi : w.installCode = 0
      · by_cases hb : w.buildCode = 0
        · cases hs : w.server.spawnOk <;>
            cases hint : w.server.interrupted <;>
              simp [main, probeOk, hn, hm, hi, hb, hs, hint, probeEvents,
                install_node_dependencies, build_application, start_server,
                okActive_cons_print, okActive_cons_spawn, okActive_cons_exit,
                okActive_cons_term, okActive_cons_wait, okActive_nil,
                okActive_log_output_append, List.append_assoc]
        · simp [main, probeOk, hn, hm, hi, hb, probeEvents,
            install_node_dependencies, build_application,
            okActive_cons_print, okActive_cons_spawn, okActive_cons_exit,
            okActive_nil, List.append_assoc]
      · simp [main, probeOk, hn, hm, hi, probeEvents,
          install_node_dependencies, okActive_cons_print,
          okActive_cons_spawn, okActive_cons_exit, okActive_nil,
          List.append_assoc]
    · simp [main, probeOk, hn, hm, okActive_cons_print,
        okActive_nil, okActive_probeEvents_append, List.append_assoc]
  · simp [main, probeOk, hn, okActive_cons_print,
      okActive_probeEvents_append, okActive_nil, List.append_assoc]

/-- Claim C10: launching the server does not mutate the Supervisor's own
ambient environment; after `start_server` the Supervisor's environment
mapping equals the one before it, for every ambient environment and every
world. -/
theorem C10_ambient_env_preserved (ambient : Env) (w : World) :
    (start_server ambient w).2.2 = ambient := by
  cases hs : w.server.spawnOk <;> cases hint : w.server.interrupted <;>
    simp [start_server, hs, hint]

/-- Claim C4, counterexample: with `node` present and `npm` missing the
genuinely uninvokable subset is `["npm"]`, yet the run prints exactly the
same lines as a run where both tools are missing — a fixed message naming
both tools — so the reported list cannot be "exactly the absent subset"
in both worlds. -/
theorem C4_counterexample :
    missingTools wC4a = ["npm"] ∧ missingTools wC4b = ["node", "npm"] ∧
      missingTools wC4a ≠ missingTools wC4b ∧
      printedLines (main [] wC4a).1 = printedLines (main [] wC4b).1 ∧
      Event.Print toolFailMsg ∈ (main [] wC4a).1 := by
  decide

/-- Claim C4, amended: if the toolchain check fails (either probe missing
or exiting non-zero), the Supervisor prints one fixed message naming both
node and npm — not the exact absent subset (and when node fails, npm is
never probed) — exits with code 1, and no setup step or server command is
ever spawned. -/
theorem C4_tool_failure_fixed_report (ambient : Env) (w : World)
    (hfail : ¬(w.nodeProbe = some 0 ∧ w.npmProbe = some 0)) :
    Event.Print toolFailMsg ∈ (main ambient w).1 ∧
      (main ambient w).2 = 1 ∧
      npmInstallCmd ∉ spawnedCmds (main ambient w).1 ∧
      npmBuildCmd ∉ spawnedCmds (main ambient w).1 ∧
      npmStartCmd ∉ spawnedCmds (main ambient w).1 := by
  refine ⟨?_, ?_, fun hmem => ?_, fun hmem => ?_, fun hmem => ?_⟩
  · by_cases hn : w.nodeProbe = some 0
    · have hm : ¬w.npmProbe = some 0 := fun hm => hfail ⟨hn, hm⟩
      simp [main, probeOk, hn, hm]
    · simp [main, probeOk, hn]
  · rw [main_exitCode, if_neg]
    exact fun hc => hfail ⟨hc.1, hc.2.1⟩
  · exact hfail ((install_spawned_iff ambient w).mp hmem)
  · obtain ⟨hn, hm, _⟩ := (build_spawned_iff ambient w).mp hmem
    exact hfail ⟨hn, hm⟩
  · obtain ⟨hn, hm, _⟩ := (start_spawned_iff ambient w).mp hmem
    exact hfail ⟨hn, hm⟩

/-- Claim C4, witness: the amended theorem at the concrete world where
only `npm` is missing. -/
theorem C4_witness :
    Event.Print toolFailMsg ∈ (main [] wC4a).1 ∧
      (main [] wC4a).2 = 1 ∧
      npmInstallCmd ∉ spawnedCmds (main [] wC4a).1 ∧
      npmBuildCmd ∉ spawnedCmds (main [] wC4a).1 ∧
      npmStartCmd ∉ spawnedCmds (main [] wC4a).1 :=
  C4_tool_failure_fixed_report [] wC4a (by decide)

/-- Claim C5, counterexample: the claim fails in two independent ways.
At `wC5` a server line with leading whitespace is relayed as the tag
followed by the stripped line, not the tag followed by the original
line.  At `wC5b` the server exits 0 after printing two lines but the
daemonic relay thread only gets one of them out before interpreter
shutdown, so only one line is relayed although N = 2; the run still
exits 0. -/
theorem C5_counterexample :
    wC5.server.outputLines = ["  ready"] ∧
      relayedLines (main [] wC5).1 = ["[SERVER] ready"] ∧
      ("[SERVER] " ++ "  ready") ∉ relayedLines (main [] wC5).1 ∧
      (main [] wC5).2 = 0 ∧
      wC5b.server.outputLines.length = 2 ∧
      (relayedLines (main [] wC5b).1).length = 1 ∧
      (main [] wC5b).2 = 0 := by
  decide

/-- Claim C5, amended: for a server that exits 0 on its own after N
output lines, the Supervisor relays, in the original order, the first D
of the N lines, where D is how many lines the daemonic relay thread
(started but never joined) manages to print before interpreter shutdown;
each relayed line is the source tag "[SERVER] " followed by the
whitespace-stripped content of the corresponding line, not the verbatim
line.  All N lines are relayed exactly when the thread drains the whole
stream (D ≥ N), which the code does not ensure.  The Supervisor then
exits with code 0. -/
theorem C5_relays_stripped_prefix (ambient : Env) (w : World)
    (hn : w.nodeProbe = some 0) (hm : w.npmProbe = some 0)
    (hi : w.installCode = 0) (hb : w.buildCode = 0)
    (hs : w.server.spawnOk = true) (hint : w.server.interrupted = false)
    (_hc : w.server.exitCode = 0) :
    relayedLines (main ambient w).1 =
        relayOf (w.server.outputLines.take w.server.drained) ∧
      relayedLines (main ambient w).1 =
        (relayOf w.server.outputLines).take w.server.drained ∧
      (w.server.outputLines.length ≤ w.server.drained →
        relayedLines (main ambient w).1 = relayOf w.server.outputLines ∧
          (relayOf w.server.outputLines).length =
            w.server.outputLines.length) ∧
      (main ambient w).2 = 0 := by
  have hrel : relayedLines (main ambient w).1 =
      relayOf (w.server.outputLines.take w.server.drained) := by
    unfold relayedLines
    rw [printedLines_main_good ambient w hn hm hi hb hs hint,
      List.filter_append]
    have h1 : supervisorPrints.filter isRelayLine = [] := by decide
    have h2 : (relayOf (w.server.outputLines.take w.server.drained)).filter
          isRelayLine =
        relayOf (w.server.outputLines.take w.server.drained) := by
      rw [List.filter_eq_self]
      intro s hsmem
      rcases List.mem_map.mp hsmem with ⟨l, _, rfl⟩
      exact isRelayLine_relayLine l
    rw [h1, h2, List.nil_append]
  refine ⟨hrel, ?_, fun hle => ?_, by simp [main_exitCode, hn, hm, hi, hb, hs]⟩
  · rw [hrel]
    exact List.map_take relayLine w.server.outputLines w.server.drained
  · rw [hrel, List.take_of_length_le hle]
    exact ⟨rfl, by simp [relayOf]⟩

/-- Claim C5, witness: the amended theorem at the concrete world whose
server prints one line with leading spaces, fully drained, exiting 0. -/
theorem C5_witness :
    relayedLines (main [] wC5).1 =
        relayOf (wC5.server.outputLines.take wC5.server.drained) ∧
      relayedLines (main [] wC5).1 =
        (relayOf wC5.server.outputLines).take wC5.server.drained ∧
      (wC5.server.outputLines.length ≤ wC5.server.drained →
        relayedLines (main [] wC5).1 = relayOf wC5.server.outputLines ∧
          (relayOf wC5.server.outputLines).length =
            wC5.server.outputLines.length) ∧
      (main [] wC5).2 = 0 :=
  C5_relays_stripped_prefix [] wC5 rfl rfl rfl rfl rfl rfl rfl

/-- Claim C7: phases are strictly ordered.  Whenever the install command
is spawned, both probes were spawned and exited 0 before it, in order;
whenever the build command is spawned, the install process additionally
exited 0 before it; whenever the server command is spawned, every earlier
phase's process exited 0 before it, as ordered subsequences of the
trace. -/
theorem C7_phase_ordering (ambient : Env) (w : World) :
    (npmInstallCmd ∈ spawnedCmds (main ambient w).1 →
      List.Sublist (phaseChainInstall ambient) (main ambient w).1) ∧
    (npmBuildCmd ∈ spawnedCmds (main ambient w).1 →
      List.Sublist (phaseChainBuild ambient) (main ambient w).1) ∧
    (npmStartCmd ∈ spawnedCmds (main ambient w).1 →
      List.Sublist (phaseChain ambient) (main ambient w).1) := by
  refine ⟨fun h => ?_, fun h => ?_, fun h => ?_⟩
  · obtain ⟨hn, hm⟩ := (install_spawned_iff ambient w).mp h
    refine List.Sublist.trans ?_
      (List.filter_sublist (p := keepProc) (main ambient w).1)
    rw [filterProc_main_checked ambient w hn hm]
    simp only [List.append_assoc]
    exact List.sublist_append_left _ _
  · obtain ⟨hn, hm, hi⟩ := (build_spawned_iff ambient w).mp h
    refine List.Sublist.trans ?_
      (List.filter_sublist (p := keepProc) (main ambient w).1)
    rw [filterProc_main_checked ambient w hn hm]
    simp [hi, phaseChainBuild, phaseChainInstall, List.append_assoc,
      List.cons_sublist_cons, List.nil_sublist]
  · obtain ⟨hn, hm, hi, hb, hs⟩ := (start_spawned_iff ambient w).mp h
    refine List.Sublist.trans ?_
      (List.filter_sublist (p := keepProc) (main ambient w).1)
    rw [filterProc_main_checked ambient w hn hm]
    simp [hi, hb, hs, phaseChain, phaseChainInstall, List.append_assoc,
      List.cons_sublist_cons, List.nil_sublist]

/-- Claim C7, witness: on the all-successful concrete world the server
command is spawned and the full phase chain is an ordered subsequence of
the trace. -/
theorem C7_witness :
    npmStartCmd ∈ spawnedCmds (main [] wAllGood).1 ∧
      List.Sublist (phaseChain []) (main [] wAllGood).1 :=
  ⟨by decide, (C7_phase_ordering [] wAllGood).2.2 (by decide)⟩

/-- Claim C8: when an interruption signal arrives while the server
process is running, the run's only shutdown actions are a termination
request to exactly the server command followed by a blocking wait on it,
and the Supervisor then exits with code 0. -/
theorem C8_graceful_shutdown (ambient : Env) (w : World)
    (hn : w.nodeProbe = some 0) (hm : w.npmProbe = some 0)
    (hi : w.installCode = 0) (hb : w.buildCode = 0)
    (hs : w.server.spawnOk = true) (hint : w.server.interrupted = true) :
    Event.Terminate npmStartCmd ∈ (main ambient w).1 ∧
      (main ambient w).1.filter keepShutdown =
        [Event.Terminate npmStartCmd, Event.WaitFor npmStartCmd] ∧
      (main ambient w).2 = 0 := by
  have hf := filterShutdown_main_interrupted ambient w hn hm hi hb hs hint
  refine ⟨List.mem_of_mem_filter (p := keepShutdown) ?_, hf,
    by simp [main_exitCode, hn, hm, hi, hb, hs]⟩
  rw [hf]
  simp

/-- Claim C8, witness: the theorem at the concrete interrupted world. -/
theorem C8_witness :
    Event.Terminate npmStartCmd ∈ (main [] wC8).1 ∧
      (main [] wC8).1.filter keepShutdown =
        [Event.Terminate npmStartCmd, Event.WaitFor npmStartCmd] ∧
      (main [] wC8).2 = 0 :=
  C8_graceful_shutdown [] wC8 rfl rfl rfl rfl rfl rfl

end App
